import Mathlib

/-!
Shallow embedding of `src/server.py`, a Flask service exposing a
credit-default model over `POST /predict`.

Modelling conventions:
- Python floats are modelled as `ℚ` (every value the program manipulates is
  finite; IEEE rounding is irrelevant to the claims under study).
- A JSON record (`dict`) is an association list `List (String × JVal)`;
  `List.lookup` returns the value of the first matching key, mirroring the
  unique-key semantics of JSON objects.
- `pandas.DataFrame(list_of_dicts)` semantics: a column exists iff some
  record of the batch carries the key; a record lacking a key that another
  record has gets the missing-value marker `NaN` in that cell.  The loop
  `for col in EXPECTED_FEATURES: if col not in df.columns: df[col] = 0.0`
  therefore fills `0.0` only for columns absent from the *whole* batch.
- The external collaborators (xgboost `Booster.predict`,
  `shap.TreeExplainer.shap_values`) are opaque per-row functions, as the
  spec's Predictor/Explainer contracts describe them (one score per row,
  row order preserved, deterministic).  `explainer.expected_value` carries
  the two partial coercions the handler attempts: `float(base_value)` and
  `float(base_value[0])`; `none` means the attempt raises one of the
  exceptions caught at that site.
- Exceptions are `Except String`; the error strings of the collaborators
  are abbreviated to fixed representative messages (the spec calls them
  collaborator-dependent and not machine-readable).
-/

namespace CreditRiskServer

/-- A JSON scalar stored in an input record: numeric, or a non-numeric
value (modelled as a string) that fails numeric coercion downstream. -/
inductive JVal where
  | num (q : ℚ)
  | str (s : String)
  deriving DecidableEq, Repr

/-- `InputRecord`: a JSON object mapping feature names to values. -/
abbrev Record := List (String × JVal)

/-- A cell of the pandas DataFrame after normalization: a value carried
over from the input, or pandas' missing-value marker `NaN`. -/
inductive Cell where
  | num (q : ℚ)
  | str (s : String)
  | nan
  deriving DecidableEq, Repr

/-- The fixed ordered feature list from `src/server.py` lines 36-41. -/
def EXPECTED_FEATURES : List String :=
  ["B_11_last", "B_1_last", "B_2_last", "B_2_mean6",
   "B_37_last", "B_7_mean3", "B_9_last", "D_42_mean12",
   "D_64_O_mean3", "P_2_last", "P_2_mean3", "R_1_mean12",
   "R_1_mean3", "S_3_mean6"]

/-- The cell that ends up at column `c` of the row built from record `r`,
after `pd.DataFrame(batch)`, the missing-column fill with `0.0`, and the
projection `df = df[EXPECTED_FEATURES]` (lines 61-69): the record's own
value if the key is present; otherwise `NaN` when some other record of the
batch supplies the column, and the filled `0.0` when no record does. -/
def normalizeCell (batch : List Record) (r : Record) (c : String) : Cell :=
  match r.lookup c with
  | some (JVal.num q) => Cell.num q
  | some (JVal.str s) => Cell.str s
  | none =>
    if batch.any (fun x => (x.lookup c).isSome) then Cell.nan else Cell.num 0

/-- The normalized DataFrame (lines 61-69): one row per record, columns
exactly `EXPECTED_FEATURES` in order; input columns outside the schema are
dropped by the projection. -/
def normalize (batch : List Record) : List (List Cell) :=
  batch.map (fun r => EXPECTED_FEATURES.map (normalizeCell batch r))

/-- Error message for `xgb.DMatrix(df)` rejecting a non-numeric column
(object dtype), abbreviated. -/
def dmatrixErrMsg : String :=
  "DataFrame.dtypes for data must be int, float, bool or category"

/-- Error message for `explainer.shap_values` being called on `None`
(`AttributeError`), abbreviated. -/
def noneTypeMsg : String :=
  "NoneType object has no attribute shap_values"

/-- Error message for `float(...)` failing on both coercion attempts of
the baseline (line 92 raising uncaught), abbreviated. -/
def baseCoerceErrMsg : String :=
  "float argument must be a string or a real number"

/-- Error message for `vals[i]` indexing past the end of the SHAP row
(`IndexError`), abbreviated. -/
def indexErrMsg : String :=
  "index out of bounds for axis 0"

/-- `xgb.DMatrix(df)` cell conversion: numeric cells pass through, `NaN`
is the missing-value marker, a non-numeric cell makes the column object
dtype and the DMatrix constructor raise. -/
def coerceCell : Cell → Except String (Option ℚ)
  | Cell.num q => Except.ok (some q)
  | Cell.nan => Except.ok none
  | Cell.str _ => Except.error dmatrixErrMsg

/-- Convert one DataFrame row for the DMatrix. -/
def coerceRow : List Cell → Except String (List (Option ℚ))
  | [] => Except.ok []
  | c :: cs =>
    match coerceCell c with
    | Except.error e => Except.error e
    | Except.ok v =>
      match coerceRow cs with
      | Except.error e => Except.error e
      | Except.ok vs => Except.ok (v :: vs)

/-- `xgb.DMatrix(df)` (line 72): succeeds iff every cell is numeric or
missing, producing the numeric matrix fed to the model and explainer. -/
def toMatrix : List (List Cell) → Except String (List (List (Option ℚ)))
  | [] => Except.ok []
  | r :: rs =>
    match coerceRow r with
    | Except.error e => Except.error e
    | Except.ok v =>
      match toMatrix rs with
      | Except.error e => Except.error e
      | Except.ok vs => Except.ok (v :: vs)

/-- The loaded xgboost booster, reduced to the only operation the handler
uses: one deterministic score per row (spec section 4.3). -/
structure Model where
  predictRow : List (Option ℚ) → ℚ

/-- `explainer.expected_value` as the handler observes it: the result of
the attempted `float(base_value)` and of the fallback
`float(base_value[0])`; `none` means that attempt raises (for the first
attempt, one of the `TypeError`/`ValueError`/`IndexError` caught at line
90). -/
structure BaseVal where
  toFloat : Option ℚ
  firstToFloat : Option ℚ
  deriving DecidableEq, Repr

/-- The SHAP `TreeExplainer`: per-row attribution values plus the baseline
(spec section 4.4). -/
structure Explainer where
  shapRow : List (Option ℚ) → List ℚ
  expected_value : BaseVal

/-- The request body as the handler sees it after `request.get_json()`:
a single object, an array of objects, or anything else (unparseable JSON
or a JSON value that `pd.DataFrame` rejects), carrying the failure text. -/
inductive ReqBody where
  | obj (r : Record)
  | arr (rs : List Record)
  | malformed (desc : String)
  deriving DecidableEq, Repr

/-- Lines 54-58: `data = request.get_json()`; a `dict` becomes the
one-element list `[data]`; a list is used as is; anything else raises
inside the `try` block. -/
def parseRecords : ReqBody → Except String (List Record)
  | ReqBody.obj r => Except.ok [r]
  | ReqBody.arr rs => Except.ok rs
  | ReqBody.malformed d => Except.error d

/-- The `base_value` field of the success response: either the coerced
float `base`, or the literal `0` from `base if 'base' in locals() else 0`
(line 104), which is taken exactly when the coercion block never ran. -/
inductive BaseOut where
  | coerced (q : ℚ)
  | fallbackZero
  deriving DecidableEq, Repr

/-- One entry of `explanation.values` (lines 95-98). -/
structure FV where
  feature : String
  value : ℚ
  deriving DecidableEq, Repr

/-- The `explanation` object of the success response (lines 103-106). -/
structure Explanation where
  base_value : BaseOut
  values : List FV
  deriving DecidableEq, Repr

/-- The JSON success body (lines 101-108). -/
structure SuccessBody where
  predictions : List ℚ
  explanation : Explanation
  status : String
  deriving DecidableEq, Repr

/-- A JSON error body of the shape produced at lines 50 and 112. -/
structure ErrorBody where
  error : String
  status : String
  deriving DecidableEq, Repr

/-- The JSON body of a response. -/
inductive RBody where
  | ok (b : SuccessBody)
  | err (e : ErrorBody)
  deriving DecidableEq, Repr

/-- An HTTP response: status code plus JSON body. -/
structure Response where
  httpStatus : Nat
  body : RBody
  deriving DecidableEq, Repr

/-- Lines 88-92: `try: base = float(base_value)` with fallback
`base = float(base_value[0])` on `TypeError`/`ValueError`/`IndexError`;
a failure of the fallback itself is not caught here. -/
def coerceBase (b : BaseVal) : Except String ℚ :=
  match b.toFloat with
  | some q => Except.ok q
  | none =>
    match b.firstToFloat with
    | some q => Except.ok q
    | none => Except.error baseCoerceErrMsg

/-- Lines 94-98: `for i, col in enumerate(EXPECTED_FEATURES)` appending
`{"feature": col, "value": float(vals[i])}`; `vals[i]` raises when the
attribution row is too short.  `i` tracks the enumeration index. -/
def mkEntriesAux (vals : List ℚ) : List String → Nat → Except String (List FV)
  | [], _ => Except.ok []
  | c :: cs, i =>
    match vals[i]? with
    | none => Except.error indexErrMsg
    | some v =>
      match mkEntriesAux vals cs (i + 1) with
      | Except.error e => Except.error e
      | Except.ok l => Except.ok (⟨c, v⟩ :: l)

/-- The full explanation-entry loop over `EXPECTED_FEATURES`. -/
def mkEntries (vals : List ℚ) : Except String (List FV) :=
  mkEntriesAux vals EXPECTED_FEATURES 0

/-- Lines 77-98: `shap_vals = explainer.shap_values(dtest)` (one
attribution row per matrix row), the `if len(shap_vals) > 0` guard, the
baseline coercion, and the entry loop over the first attribution row.
With zero rows the coercion block never runs, so `base` stays undefined
and the response later falls back to the literal `0`. -/
def explainPart (ex : Explainer) (matrix : List (List (Option ℚ))) :
    Except String Explanation :=
  match matrix.map ex.shapRow with
  | [] => Except.ok ⟨BaseOut.fallbackZero, []⟩
  | vals0 :: _ =>
    match coerceBase ex.expected_value with
    | Except.error e => Except.error e
    | Except.ok b =>
      match mkEntries vals0 with
      | Except.error e => Except.error e
      | Except.ok entries => Except.ok ⟨BaseOut.coerced b, entries⟩

/-- Lines 72-109 applied to a matrix that already passed the DMatrix
conversion: predict every row, run the explainer (an `AttributeError` when
the explainer global is `None`), and assemble the success body with
`"status": "success"`. -/
def formatResult (m : Model) (ex? : Option Explainer)
    (matrix : List (List (Option ℚ))) : Except String SuccessBody :=
  match ex? with
  | none => Except.error noneTypeMsg
  | some ex =>
    match explainPart ex matrix with
    | Except.error e => Except.error e
    | Except.ok expl => Except.ok ⟨matrix.map m.predictRow, expl, "success"⟩

/-- Lines 61-109 after the record list is in hand: normalization, DMatrix
conversion, prediction, explanation, response assembly. -/
def pipelineOfRecords (m : Model) (ex? : Option Explainer)
    (records : List Record) : Except String SuccessBody :=
  match toMatrix (normalize records) with
  | Except.error e => Except.error e
  | Except.ok matrix => formatResult m ex? matrix

/-- The body of the `try` block of `predict` (lines 52-109): parse,
normalize, build the DMatrix, predict, explain, and format the success
body.  Every failure becomes `Except.error` with its message. -/
def runPipeline (m : Model) (ex? : Option Explainer) (body : ReqBody) :
    Except String SuccessBody :=
  match parseRecords body with
  | Except.error e => Except.error e
  | Except.ok records => pipelineOfRecords m ex? records

/-- The process-wide globals set up at import time. -/
structure ServerState where
  model : Option Model
  explainer : Option Explainer

/-- Lines 18-32: `explainer = None`; if the model file exists, both the
model and the SHAP explainer are initialized, otherwise `model = None`.
All reachable serving states are of this shape, and the state is never
mutated afterwards. -/
def startup (modelFileExists : Bool) (loaded : Model) (ex : Explainer) :
    ServerState :=
  if modelFileExists then ⟨some loaded, some ex⟩ else ⟨none, none⟩

/-- The `/predict` handler (lines 47-112): the model-availability check
returning 500 before the body is touched, then the `try` block, with the
blanket `except Exception` turning any failure into a 400 error body. -/
def predictHandler (st : ServerState) (body : ReqBody) : Response :=
  match st.model with
  | none => ⟨500, RBody.err ⟨"Model not loaded", "error"⟩⟩
  | some m =>
    match runPipeline m st.explainer body with
    | Except.ok sb => ⟨200, RBody.ok sb⟩
    | Except.error e => ⟨400, RBody.err ⟨e, "error"⟩⟩

/-! ### Shared helper lemmas -/

theorem expected_features_length : EXPECTED_FEATURES.length = 14 := rfl

theorem normalize_length (batch : List Record) :
    (normalize batch).length = batch.length := by
  simp [normalize]

theorem toMatrix_length :
    ∀ {rows : List (List Cell)} {M : List (List (Option ℚ))},
      toMatrix rows = Except.ok M → M.length = rows.length := by
  intro rows
  induction rows with
  | nil =>
    intro M h
    simp only [toMatrix] at h
    injection h with h
    simp [← h]
  | cons r rs ih =>
    intro M h
    simp only [toMatrix] at h
    cases hr : coerceRow r with
    | error e => rw [hr] at h; exact absurd h (by simp)
    | ok v =>
      rw [hr] at h
      cases hm : toMatrix rs with
      | error e => rw [hm] at h; exact absurd h (by simp)
      | ok vs =>
        rw [hm] at h
        injection h with h
        simp [← h, ih hm]

theorem coerceCell_err {c : Cell} {e : String}
    (h : coerceCell c = Except.error e) : e = dmatrixErrMsg := by
  cases c <;> simp_all [coerceCell]

theorem coerceRow_err :
    ∀ {r : List Cell} {e : String},
      coerceRow r = Except.error e → e = dmatrixErrMsg := by
  intro r
  induction r with
  | nil => intro e h; simp [coerceRow] at h
  | cons c cs ih =>
    intro e h
    simp only [coerceRow] at h
    cases hc : coerceCell c with
    | error e1 =>
      rw [hc] at h
      injection h with h
      rw [← h]
      exact coerceCell_err hc
    | ok v =>
      rw [hc] at h
      cases hr : coerceRow cs with
      | error e1 =>
        rw [hr] at h
        injection h with h
        rw [← h]
        exact ih hr
      | ok vs => rw [hr] at h; exact absurd h (by simp)

theorem toMatrix_err :
    ∀ {rows : List (List Cell)} {e : String},
      toMatrix rows = Except.error e → e = dmatrixErrMsg := by
  intro rows
  induction rows with
  | nil => intro e h; simp [toMatrix] at h
  | cons r rs ih =>
    intro e h
    simp only [toMatrix] at h
    cases hr : coerceRow r with
    | error e1 =>
      rw [hr] at h
      injection h with h
      rw [← h]
      exact coerceRow_err hr
    | ok v =>
      rw [hr] at h
      cases hm : toMatrix rs with
      | error e1 =>
        rw [hm] at h
        injection h with h
        rw [← h]
        exact ih hm
      | ok vs => rw [hm] at h; exact absurd h (by simp)

theorem coerceBase_err {b : BaseVal} {e : String}
    (h : coerceBase b = Except.error e) : e = baseCoerceErrMsg := by
  unfold coerceBase at h
  cases hf : b.toFloat with
  | some q => rw [hf] at h; simp at h
  | none =>
    rw [hf] at h
    cases hg : b.firstToFloat with
    | some q => rw [hg] at h; simp at h
    | none =>
      rw [hg] at h
      injection h with h
      exact h.symm

theorem mkEntriesAux_err {vals : List ℚ} :
    ∀ {cs : List String} {i : Nat} {e : String},
      mkEntriesAux vals cs i = Except.error e → e = indexErrMsg := by
  intro cs
  induction cs with
  | nil => intro i e h; simp [mkEntriesAux] at h
  | cons c cs ih =>
    intro i e h
    simp only [mkEntriesAux] at h
    cases hv : vals[i]? with
    | none =>
      rw [hv] at h
      injection h with h
      exact h.symm
    | some v =>
      rw [hv] at h
      cases hr : mkEntriesAux vals cs (i + 1) with
      | error e1 =>
        rw [hr] at h
        injection h with h
        rw [← h]
        exact ih hr
      | ok l => rw [hr] at h; exact absurd h (by simp)

theorem mkEntriesAux_ok {vals : List ℚ} :
    ∀ {cs : List String} {i : Nat} {l : List FV},
      mkEntriesAux vals cs i = Except.ok l →
      l.map FV.feature = cs ∧ l.map FV.value = (vals.drop i).take cs.length := by
  intro cs
  induction cs with
  | nil =>
    intro i l h
    simp only [mkEntriesAux] at h
    injection h with h
    simp [← h]
  | cons c cs ih =>
    intro i l h
    simp only [mkEntriesAux] at h
    cases hv : vals[i]? with
    | none => rw [hv] at h; exact absurd h (by simp)
    | some v =>
      rw [hv] at h
      cases hr : mkEntriesAux vals cs (i + 1) with
      | error e1 => rw [hr] at h; exact absurd h (by simp)
      | ok l1 =>
        rw [hr] at h
        injection h with h
        obtain ⟨ih1, ih2⟩ := ih hr
        have hi : i < vals.length := by
          by_contra hi
          rw [List.getElem?_eq_none (Nat.le_of_not_lt hi)] at hv
          exact Option.noConfusion hv
        have hdrop : vals.drop i = v :: vals.drop (i + 1) := by
          rw [List.drop_eq_getElem_cons hi]
          have : vals[i] = v := by
            have := List.getElem?_eq_getElem hi
            rw [hv] at this
            exact (Option.some.injEq _ _).mp this.symm
          rw [this]
        constructor
        · rw [← h]
          simp [ih1]
        · rw [← h]
          simp only [List.map_cons, List.length_cons, hdrop, List.take_succ_cons]
          rw [ih2]

theorem mkEntries_ok {vals : List ℚ} {l : List FV}
    (h : mkEntries vals = Except.ok l) :
    l.map FV.feature = EXPECTED_FEATURES ∧
      l.map FV.value = vals.take 14 ∧ l.length = 14 := by
  obtain ⟨h1, h2⟩ := mkEntriesAux_ok h
  refine ⟨h1, ?_, ?_⟩
  · simpa [expected_features_length] using h2
  · have := congrArg List.length h1
    simpa [expected_features_length] using this

theorem runPipeline_parse_ok {m : Model} {ex? : Option Explainer}
    {body : ReqBody} {rs : List Record}
    (hp : parseRecords body = Except.ok rs) :
    runPipeline m ex? body = pipelineOfRecords m ex? rs := by
  unfold runPipeline
  rw [hp]

theorem pipelineOfRecords_matrix_ok {m : Model} {ex? : Option Explainer}
    {records : List Record} {M : List (List (Option ℚ))}
    (hM : toMatrix (normalize records) = Except.ok M) :
    pipelineOfRecords m ex? records = formatResult m ex? M := by
  unfold pipelineOfRecords
  rw [hM]

theorem formatResult_ok {m : Model} {ex? : Option Explainer}
    {matrix : List (List (Option ℚ))} {sb : SuccessBody}
    (h : formatResult m ex? matrix = Except.ok sb) :
    ∃ ex expl, ex? = some ex ∧ explainPart ex matrix = Except.ok expl ∧
      sb = ⟨matrix.map m.predictRow, expl, "success"⟩ := by
  unfold formatResult at h
  cases ex? with
  | none => simp at h
  | some ex =>
    cases he : explainPart ex matrix with
    | error e => simp only [he] at h; exact absurd h (by simp)
    | ok expl =>
      simp only [he] at h
      injection h with h
      exact ⟨ex, expl, rfl, he, h.symm⟩

theorem explainPart_ok {ex : Explainer} {matrix : List (List (Option ℚ))}
    {expl : Explanation} (h : explainPart ex matrix = Except.ok expl) :
    (matrix = [] ∧ expl = ⟨BaseOut.fallbackZero, []⟩) ∨
      (∃ r0 rest q entries, matrix = r0 :: rest ∧
        coerceBase ex.expected_value = Except.ok q ∧
        mkEntries (ex.shapRow r0) = Except.ok entries ∧
        expl = ⟨BaseOut.coerced q, entries⟩) := by
  unfold explainPart at h
  cases matrix with
  | nil =>
    simp only [List.map_nil] at h
    injection h with h
    exact Or.inl ⟨rfl, h.symm⟩
  | cons r0 rest =>
    simp only [List.map_cons] at h
    cases hb : coerceBase ex.expected_value with
    | error e => rw [hb] at h; exact absurd h (by simp)
    | ok q =>
      rw [hb] at h
      cases he : mkEntries (ex.shapRow r0) with
      | error e => rw [he] at h; exact absurd h (by simp)
      | ok entries =>
        rw [he] at h
        injection h with h
        exact Or.inr ⟨r0, rest, q, entries, rfl,
          by first | exact hb | rfl, he, h.symm⟩

/-! ### Claim theorems -/

/-- Claim C2: when the model store holds no loaded model, every call to
the `/predict` handler, for any request body (including a malformed or
empty one), returns HTTP 500 with body
`{"error": "Model not loaded", "status": "error"}`, and the response does
not depend on the body in any way — the handler returns before parsing or
normalizing it (lines 49-50 precede `request.get_json()`). -/
theorem c2_model_unloaded_500 (st : ServerState) (b b' : ReqBody)
    (h : st.model = none) :
    predictHandler st b = ⟨500, RBody.err ⟨"Model not loaded", "error"⟩⟩ ∧
      predictHandler st b = predictHandler st b' := by
  unfold predictHandler
  rw [h]
  exact ⟨rfl, rfl⟩

/-- Witness for C2: the startup state without a model file answers 500
identically on a malformed body and on an empty batch. -/
theorem c2_witness :
    predictHandler ⟨none, none⟩ (ReqBody.malformed ("Expecting value")) =
      ⟨500, RBody.err ⟨"Model not loaded", "error"⟩⟩ ∧
    predictHandler ⟨none, none⟩ (ReqBody.malformed ("Expecting value")) =
      predictHandler ⟨none, none⟩ (ReqBody.arr []) :=
  c2_model_unloaded_500 ⟨none, none⟩ (ReqBody.malformed ("Expecting value"))
    (ReqBody.arr []) rfl

/-- Claim C4: every failure raised in the parse, normalize, predict or
explain steps (the whole `try` block, lines 52-109) is caught by the
single blanket `except Exception` handler (lines 111-112) and becomes an
HTTP 400 response `{"error": <description>, "status": "error"}`; the
handler is total, so no exception escapes: every response is the fixed
500 body, a 200 success body, or such a 400 error body. -/
theorem c4_blanket_handler :
    (∀ (st : ServerState) (m : Model) (body : ReqBody) (e : String),
      st.model = some m → runPipeline m st.explainer body = Except.error e →
      predictHandler st body = ⟨400, RBody.err ⟨e, "error"⟩⟩) ∧
    (∀ (st : ServerState) (body : ReqBody),
      predictHandler st body = ⟨500, RBody.err ⟨"Model not loaded", "error"⟩⟩ ∨
      (∃ sb, predictHandler st body = ⟨200, RBody.ok sb⟩) ∨
      (∃ e, predictHandler st body = ⟨400, RBody.err ⟨e, "error"⟩⟩)) := by
  constructor
  · intro st m body e hm hrun
    simp only [predictHandler, hm, hrun]
  · intro st body
    cases hm : st.model with
    | none => exact Or.inl (by simp only [predictHandler, hm])
    | some m =>
      cases hrun : runPipeline m st.explainer body with
      | ok sb =>
        exact Or.inr (Or.inl ⟨sb, by simp only [predictHandler, hm, hrun]⟩)
      | error e =>
        exact Or.inr (Or.inr ⟨e, by simp only [predictHandler, hm, hrun]⟩)

/-- Witness for C4: with a model loaded, a body that fails JSON/DataFrame
parsing is converted into the 400 error response carrying the failure
text. -/
theorem c4_witness :
    predictHandler ⟨some ⟨fun _ => 0⟩, none⟩
        (ReqBody.malformed ("DataFrame constructor not properly called")) =
      ⟨400, RBody.err
        ⟨"DataFrame constructor not properly called", "error"⟩⟩ :=
  c4_blanket_handler.1 ⟨some ⟨fun _ => 0⟩, none⟩ ⟨fun _ => 0⟩
    (ReqBody.malformed ("DataFrame constructor not properly called"))
    ("DataFrame constructor not properly called") rfl rfl

/-- Claim C6: for every JSON object `r`, sending `r` as the body of
`/predict` produces exactly the same response as sending the one-element
array `[r]` — lines 57-58 wrap a `dict` into a one-element list before
anything else looks at it. -/
theorem c6_single_record_is_one_row_batch (st : ServerState) (r : Record) :
    predictHandler st (ReqBody.obj r) = predictHandler st (ReqBody.arr [r]) :=
  rfl

/-- Claim C8: posting the empty JSON array with a loaded model succeeds:
`predictions` is the empty array, `status` is `"success"`, and no error
response is produced (the response also carries the empty explanation
with the literal-`0` baseline). -/
theorem c8_empty_batch_success (m : Model) (ex : Explainer) :
    predictHandler (startup true m ex) (ReqBody.arr []) =
      ⟨200, RBody.ok ⟨[], ⟨BaseOut.fallbackZero, []⟩, "success"⟩⟩ :=
  rfl

/-- Claim C1 (counterexample): in the batch
`[{"B_11_last": 1.0}, {}]` the second record is missing the expected
feature `"B_11_last"`, yet its cell in the normalized matrix (row 1,
column 0) is the pandas missing-value marker `NaN`, not the claimed
`0.0`: the fill loop at lines 65-67 only inserts `0.0` for columns absent
from the whole batch, and record 0 supplies the column here. -/
theorem c1_counterexample :
    (normalize [[("B_11_last", JVal.num 1)], []])[1]? =
      some [Cell.nan, Cell.num 0, Cell.num 0, Cell.num 0, Cell.num 0,
        Cell.num 0, Cell.num 0, Cell.num 0, Cell.num 0, Cell.num 0,
        Cell.num 0, Cell.num 0, Cell.num 0, Cell.num 0] ∧
    Cell.nan ≠ Cell.num 0 :=
  ⟨rfl, by decide⟩

/-- Claim C1 (amended): the normalized matrix has one row per input
record and exactly 14 columns in the fixed `EXPECTED_FEATURES` order,
with columns not in the schema dropped; for a record missing an expected
feature name, the value `0.0` is inserted exactly when the name is
missing from every record of the batch — when some other record of the
batch supplies the name, the missing cell is `NaN` instead (in
particular, for a single-record input every missing name becomes
`0.0`). -/
theorem c1_normalize_amended (batch : List Record) (i : Nat) (c : String)
    (r : Record) (hr : batch[i]? = some r) (hc : c ∈ EXPECTED_FEATURES)
    (hmiss : r.lookup c = none) :
    (normalize batch).length = batch.length ∧
    (normalize batch)[i]? = some (EXPECTED_FEATURES.map (normalizeCell batch r)) ∧
    (EXPECTED_FEATURES.map (normalizeCell batch r)).length = 14 ∧
    (EXPECTED_FEATURES.map (normalizeCell batch r))[EXPECTED_FEATURES.indexOf c]? =
      some (if batch.any (fun x => (x.lookup c).isSome) then Cell.nan
            else Cell.num 0) := by
  refine ⟨normalize_length batch, ?_, ?_, ?_⟩
  · simp only [normalize, List.getElem?_map, hr, Option.map_some']
  · simp [expected_features_length]
  · rw [List.getElem?_map, List.getElem?_indexOf hc, Option.map_some']
    simp [normalizeCell, hmiss]

/-- Witness for C1 (amended): a one-record batch whose record carries only
a non-schema key gets the full 14-column row of `0.0` cells. -/
theorem c1_witness :
    (normalize [[("junk_key", JVal.num 5)]]).length = 1 ∧
    (normalize [[("junk_key", JVal.num 5)]])[0]? =
      some (EXPECTED_FEATURES.map
        (normalizeCell [[("junk_key", JVal.num 5)]] [("junk_key", JVal.num 5)])) ∧
    (EXPECTED_FEATURES.map
      (normalizeCell [[("junk_key", JVal.num 5)]] [("junk_key", JVal.num 5)])).length = 14 ∧
    (EXPECTED_FEATURES.map
      (normalizeCell [[("junk_key", JVal.num 5)]]
        [("junk_key", JVal.num 5)]))[EXPECTED_FEATURES.indexOf "B_11_last"]? =
      some (if ([[("junk_key", JVal.num 5)]] : List Record).any
              (fun x => (x.lookup "B_11_last").isSome) then Cell.nan
            else Cell.num 0) :=
  c1_normalize_amended [[("junk_key", JVal.num 5)]] 0 "B_11_last"
    [("junk_key", JVal.num 5)] rfl (by decide) rfl

/-- Claim C3 (counterexample): when both baseline coercions fail (a value
whose `float(...)` and `float(...[0])` both raise), the request does not
succeed with `base_value` defaulting to `0`: the uncaught second failure
propagates to the blanket handler and the whole request fails with a 400
error response. -/
theorem c3_counterexample :
    predictHandler
        ⟨some ⟨fun _ => 0⟩,
         some ⟨fun _ => List.replicate 14 0, ⟨none, none⟩⟩⟩
        (ReqBody.obj []) =
      ⟨400, RBody.err ⟨baseCoerceErrMsg, "error"⟩⟩ ∧
    (predictHandler
        ⟨some ⟨fun _ => 0⟩,
         some ⟨fun _ => List.replicate 14 0, ⟨none, none⟩⟩⟩
        (ReqBody.obj [])).httpStatus ≠ 200 :=
  ⟨rfl, by decide⟩

/-- Claim C3 (amended): baseline extraction first attempts scalar
coercion of the algorithm's expected value, and only on failure takes the
first element of the collection (lines 88-92); but if both attempts fail,
the failure of the second `float` call is not caught at that site — it
propagates to the blanket handler and the request fails with a 400 error
response (the `base_value` default literal `0` is never produced this
way; it appears only for empty batches, see C10). -/
theorem c3_baseline_amended :
    (∀ (b : BaseVal) (q : ℚ), b.toFloat = some q →
      coerceBase b = Except.ok q) ∧
    (∀ (b : BaseVal) (q : ℚ), b.toFloat = none → b.firstToFloat = some q →
      coerceBase b = Except.ok q) ∧
    (∀ b : BaseVal, b.toFloat = none → b.firstToFloat = none →
      coerceBase b = Except.error baseCoerceErrMsg) ∧
    (∀ (st : ServerState) (m : Model) (ex : Explainer) (rs : List Record)
        (M : List (List (Option ℚ))),
      st.model = some m → st.explainer = some ex →
      ex.expected_value.toFloat = none →
      ex.expected_value.firstToFloat = none →
      rs ≠ [] → toMatrix (normalize rs) = Except.ok M →
      predictHandler st (ReqBody.arr rs) =
        ⟨400, RBody.err ⟨baseCoerceErrMsg, "error"⟩⟩) := by
  refine ⟨?_, ?_, ?_, ?_⟩
  · intro b q h
    unfold coerceBase
    rw [h]
  · intro b q h1 h2
    unfold coerceBase
    rw [h1, h2]
  · intro b h1 h2
    unfold coerceBase
    rw [h1, h2]
  · intro st m ex rs M hm hex htf hff hrs hMat
    have hcb : coerceBase ex.expected_value = Except.error baseCoerceErrMsg := by
      unfold coerceBase
      rw [htf, hff]
    have hM0 : M ≠ [] := by
      intro hnil
      have hlen := toMatrix_length hMat
      rw [normalize_length, hnil] at hlen
      exact hrs (List.length_eq_zero.mp hlen.symm)
    cases M with
    | nil => exact absurd rfl hM0
    | cons r0 rest =>
      have hep : explainPart ex (r0 :: rest) = Except.error baseCoerceErrMsg := by
        unfold explainPart
        simp only [List.map_cons]
        rw [hcb]
      simp only [predictHandler, hm]
      rw [runPipeline_parse_ok
            (show parseRecords (ReqBody.arr rs) = Except.ok rs from rfl),
        pipelineOfRecords_matrix_ok hMat, hex]
      simp only [formatResult, hep]

/-- Witness for C3 (amended): a scalar baseline is coerced directly; a
baseline failing both coercions makes a one-record request fail with the
400 error response. -/
theorem c3_witness :
    coerceBase ⟨some 2, none⟩ = Except.ok 2 ∧
    coerceBase ⟨none, some 3⟩ = Except.ok 3 ∧
    coerceBase ⟨none, none⟩ = Except.error baseCoerceErrMsg ∧
    predictHandler
        ⟨some ⟨fun _ => 0⟩,
         some ⟨fun _ => List.replicate 14 0, ⟨none, none⟩⟩⟩
        (ReqBody.arr [[]]) =
      ⟨400, RBody.err ⟨baseCoerceErrMsg, "error"⟩⟩ :=
  ⟨c3_baseline_amended.1 ⟨some 2, none⟩ 2 rfl,
   c3_baseline_amended.2.1 ⟨none, some 3⟩ 3 rfl rfl,
   c3_baseline_amended.2.2.1 ⟨none, none⟩ rfl rfl,
   c3_baseline_amended.2.2.2
     ⟨some ⟨fun _ => 0⟩, some ⟨fun _ => List.replicate 14 0, ⟨none, none⟩⟩⟩
     ⟨fun _ => 0⟩ ⟨fun _ => List.replicate 14 0, ⟨none, none⟩⟩ [[]]
     [List.replicate 14 (some 0)] rfl rfl rfl rfl (by decide) rfl⟩

theorem lookup_any_congr {rs rs' : List Record}
    (h : List.Forall₂ (fun r r' => ∀ c ∈ EXPECTED_FEATURES,
      r.lookup c = r'.lookup c) rs rs')
    {c : String} (hc : c ∈ EXPECTED_FEATURES) :
    rs.any (fun x => (x.lookup c).isSome) =
      rs'.any (fun x => (x.lookup c).isSome) := by
  induction h with
  | nil => rfl
  | cons ha htail ih =>
    simp only [List.any_cons]
    rw [ha c hc, ih]

theorem normalize_congr {rs rs' : List Record}
    (h : List.Forall₂ (fun r r' => ∀ c ∈ EXPECTED_FEATURES,
      r.lookup c = r'.lookup c) rs rs') :
    normalize rs = normalize rs' := by
  have hlen : rs.length = rs'.length := h.length_eq
  apply List.ext_getElem
  · simp [normalize_length, hlen]
  · intro i h1 h2
    rw [normalize_length] at h1 h2
    simp only [normalize, List.getElem_map]
    apply List.map_congr_left
    intro c hc
    have hR : ∀ c ∈ EXPECTED_FEATURES,
        (rs[i]).lookup c = (rs'[i]).lookup c := by
      have hg := List.forall₂_iff_get.mp h
      simpa using hg.2 i h1 h2
    unfold normalizeCell
    rw [hR c hc, lookup_any_congr h hc]

/-- Claim C5: two inputs that differ only in keys outside the 14-name
schema produce the same normalized matrix (the extraneous keys are
dropped by the projection `df = df[EXPECTED_FEATURES]`) and, against the
same server state, identical `/predict` responses — in particular
identical predictions.  The hypothesis states that corresponding records
agree on every schema key. -/
theorem c5_extraneous_keys_noninterference (st : ServerState)
    (rs rs' : List Record)
    (h : List.Forall₂ (fun r r' => ∀ c ∈ EXPECTED_FEATURES,
      r.lookup c = r'.lookup c) rs rs') :
    normalize rs = normalize rs' ∧
      predictHandler st (ReqBody.arr rs) = predictHandler st (ReqBody.arr rs') := by
  have hn : normalize rs = normalize rs' := normalize_congr h
  refine ⟨hn, ?_⟩
  cases hm : st.model with
  | none => simp only [predictHandler, hm]
  | some m =>
    simp only [predictHandler, hm]
    rw [runPipeline_parse_ok
          (show parseRecords (ReqBody.arr rs) = Except.ok rs from rfl),
      runPipeline_parse_ok
        (show parseRecords (ReqBody.arr rs') = Except.ok rs' from rfl)]
    have hp2 : pipelineOfRecords m st.explainer rs =
        pipelineOfRecords m st.explainer rs' := by
      unfold pipelineOfRecords
      rw [hn]
    rw [hp2]

/-- Witness for C5: adding an extraneous key `"junk_key"` to a record
leaves the normalized matrix and the full response unchanged. -/
theorem c5_witness :
    normalize [[("B_11_last", JVal.num 1), ("junk_key", JVal.num 5)]] =
        normalize [[("B_11_last", JVal.num 1)]] ∧
      predictHandler
          ⟨some ⟨fun _ => 0⟩,
           some ⟨fun _ => List.replicate 14 0, ⟨some 0, none⟩⟩⟩
          (ReqBody.arr [[("B_11_last", JVal.num 1), ("junk_key", JVal.num 5)]]) =
        predictHandler
          ⟨some ⟨fun _ => 0⟩,
           some ⟨fun _ => List.replicate 14 0, ⟨some 0, none⟩⟩⟩
          (ReqBody.arr [[("B_11_last", JVal.num 1)]]) :=
  c5_extraneous_keys_noninterference
    ⟨some ⟨fun _ => 0⟩, some ⟨fun _ => List.replicate 14 0, ⟨some 0, none⟩⟩⟩
    [[("B_11_last", JVal.num 1), ("junk_key", JVal.num 5)]]
    [[("B_11_last", JVal.num 1)]]
    (List.Forall₂.cons (by decide) List.Forall₂.nil)

theorem handler_200_ok {st : ServerState} {m : Model} {body : ReqBody}
    {sb : SuccessBody} (hm : st.model = some m)
    (h : predictHandler st body = ⟨200, RBody.ok sb⟩) :
    runPipeline m st.explainer body = Except.ok sb := by
  simp only [predictHandler, hm] at h
  cases hrun : runPipeline m st.explainer body with
  | ok sb2 =>
    simp only [hrun] at h
    injection h with h1 h2
    injection h2 with h2
    rw [h2]
  | error e =>
    simp only [hrun] at h
    injection h with h1 h2
    exact absurd h1 (by decide)

theorem mkEntries_err {vals : List ℚ} {e : String}
    (h : mkEntries vals = Except.error e) : e = indexErrMsg := by
  have h2 : mkEntriesAux vals EXPECTED_FEATURES 0 = Except.error e := h
  exact mkEntriesAux_err h2

theorem explainPart_err {ex : Explainer} {M : List (List (Option ℚ))}
    {e : String} (h : explainPart ex M = Except.error e) :
    e = baseCoerceErrMsg ∨ e = indexErrMsg := by
  unfold explainPart at h
  cases M with
  | nil => simp at h
  | cons r0 rest =>
    simp only [List.map_cons] at h
    cases hb : coerceBase ex.expected_value with
    | error e1 =>
      rw [hb] at h
      injection h with h
      rw [← h]
      exact Or.inl (coerceBase_err hb)
    | ok q =>
      rw [hb] at h
      cases he : mkEntries (ex.shapRow r0) with
      | error e1 =>
        rw [he] at h
        injection h with h
        rw [← h]
        exact Or.inr (mkEntries_err he)
      | ok l => rw [he] at h; exact absurd h (by simp)

theorem pipelineOfRecords_err_classified {m : Model} {ex : Explainer}
    {records : List Record} {e : String}
    (h : pipelineOfRecords m (some ex) records = Except.error e) :
    e = dmatrixErrMsg ∨ e = baseCoerceErrMsg ∨ e = indexErrMsg := by
  unfold pipelineOfRecords at h
  cases hM : toMatrix (normalize records) with
  | error e1 =>
    simp only [hM] at h
    injection h with h
    rw [← h]
    exact Or.inl (toMatrix_err hM)
  | ok M =>
    simp only [hM] at h
    have h2 : formatResult m (some ex) M = Except.error e := h
    unfold formatResult at h2
    cases hep : explainPart ex M with
    | error e1 =>
      simp only [hep] at h2
      injection h2 with h2
      rw [← h2]
      exact Or.inr (explainPart_err hep)
    | ok expl =>
      simp only [hep] at h2
      exact absurd h2 (by simp)

/-- Claim C7: whenever a non-empty batch is handled successfully (with a
loaded model and its explainer), `explanation.values` has exactly 14
entries whose `feature` fields are exactly `EXPECTED_FEATURES` in order,
their values are the first 14 attribution values of row 0 of the
normalized matrix only — even for multi-row batches — and `base_value`
is a coerced float (finite by construction, since the embedding's numbers
are rationals). -/
theorem c7_explanation_first_row (st : ServerState) (m : Model)
    (ex : Explainer) (rs : List Record) (sb : SuccessBody)
    (hm : st.model = some m) (hex : st.explainer = some ex)
    (hrs : rs ≠ [])
    (hresp : predictHandler st (ReqBody.arr rs) = ⟨200, RBody.ok sb⟩) :
    ∃ r0 rest, toMatrix (normalize rs) = Except.ok (r0 :: rest) ∧
      sb.explanation.values.length = 14 ∧
      sb.explanation.values.map FV.feature = EXPECTED_FEATURES ∧
      sb.explanation.values.map FV.value = (ex.shapRow r0).take 14 ∧
      ∃ q, sb.explanation.base_value = BaseOut.coerced q := by
  have hrun := handler_200_ok hm hresp
  rw [runPipeline_parse_ok
        (show parseRecords (ReqBody.arr rs) = Except.ok rs from rfl)] at hrun
  unfold pipelineOfRecords at hrun
  cases hM : toMatrix (normalize rs) with
  | error e =>
    rw [hM] at hrun
    simp at hrun
  | ok M =>
    simp only [hM] at hrun
    have hfmt : formatResult m st.explainer M = Except.ok sb := hrun
    obtain ⟨ex2, expl, hex2, hep, hsb⟩ := formatResult_ok hfmt
    rw [hex] at hex2
    injection hex2 with hex2
    subst hex2
    rcases explainPart_ok hep with ⟨hM0, _⟩ |
      ⟨r0, rest, q, entries, hMc, hb, he, hexpl⟩
    · have hlen := toMatrix_length hM
      rw [normalize_length, hM0] at hlen
      exact absurd (List.length_eq_zero.mp hlen.symm) hrs
    · subst hMc
      obtain ⟨hf, hv, hl⟩ := mkEntries_ok he
      refine ⟨r0, rest, by first | exact hM | rfl, ?_, ?_, ?_, ⟨q, ?_⟩⟩
      · rw [hsb]
        simpa [hexpl] using hl
      · rw [hsb]
        simpa [hexpl] using hf
      · rw [hsb]
        simpa [hexpl] using hv
      · rw [hsb]
        simp [hexpl]

/-- Concrete server state (loaded model and explainer) for the C7
witness. -/
def w7state : ServerState :=
  ⟨some ⟨fun _ => 1⟩, some ⟨fun _ => List.replicate 14 0, ⟨some 0, none⟩⟩⟩

/-- The success body the C7 witness request produces. -/
def w7body : SuccessBody :=
  ⟨[1], ⟨BaseOut.coerced 0, EXPECTED_FEATURES.map (fun c => ⟨c, 0⟩)⟩,
   "success"⟩

/-- Witness for C7: a one-record request against a loaded model and
explainer succeeds with the 14 schema-ordered explanation entries taken
from row 0. -/
theorem c7_witness :
    predictHandler w7state (ReqBody.arr [[]]) = ⟨200, RBody.ok w7body⟩ ∧
    (∃ r0 rest, toMatrix (normalize [[]]) = Except.ok (r0 :: rest) ∧
      w7body.explanation.values.length = 14 ∧
      w7body.explanation.values.map FV.feature = EXPECTED_FEATURES ∧
      w7body.explanation.values.map FV.value =
        ((⟨fun _ => List.replicate 14 0, ⟨some 0, none⟩⟩ :
          Explainer).shapRow r0).take 14 ∧
      ∃ q, w7body.explanation.base_value = BaseOut.coerced q) :=
  ⟨by decide,
   c7_explanation_first_row w7state ⟨fun _ => 1⟩
     ⟨fun _ => List.replicate 14 0, ⟨some 0, none⟩⟩ [[]] w7body rfl rfl
     (by decide) (by decide)⟩

/-- Claim C9: in every state reachable from startup (lines 18-32 run once
and nothing mutates the globals afterwards), a loaded model implies an
initialized explainer, so the explanation step — reached only after the
model check — never evaluates the `None`-explainer `AttributeError`: for
any parseable body the response is never the 400 error carrying that
message. -/
theorem c9_model_implies_explainer (pe : Bool) (m : Model) (e : Explainer) :
    ((startup pe m e).model.isSome → (startup pe m e).explainer.isSome) ∧
    (∀ (body : ReqBody) (rs : List Record),
      parseRecords body = Except.ok rs → (startup pe m e).model.isSome →
      predictHandler (startup pe m e) body ≠
        ⟨400, RBody.err ⟨noneTypeMsg, "error"⟩⟩) := by
  cases pe with
  | false =>
    refine ⟨?_, ?_⟩
    · intro h
      simp [startup] at h
    · intro body rs hp h
      simp [startup] at h
  | true =>
    refine ⟨fun _ => by simp [startup], ?_⟩
    intro body rs hp _
    have hst : startup true m e = ⟨some m, some e⟩ := by simp [startup]
    rw [hst]
    simp only [predictHandler]
    rw [runPipeline_parse_ok hp]
    cases hpl : pipelineOfRecords m (some e) rs with
    | ok sb =>
      simp only [hpl]
      intro hcontra
      injection hcontra with h1 h2
      exact absurd h1 (by decide)
    | error e1 =>
      simp only [hpl]
      intro hcontra
      injection hcontra with h1 h2
      injection h2 with h2
      injection h2 with h3 h4
      rcases pipelineOfRecords_err_classified hpl with h | h | h <;>
        rw [h] at h3 <;> exact absurd h3 (by decide)

/-- Witness for C9: with the model file present, the startup state has an
explainer, and an empty-batch request does not produce the
absent-explainer error response. -/
theorem c9_witness :
    ((startup true ⟨fun _ => 0⟩
        ⟨fun _ => [], ⟨some 0, none⟩⟩).explainer.isSome) ∧
    predictHandler
        (startup true ⟨fun _ => 0⟩ ⟨fun _ => [], ⟨some 0, none⟩⟩)
        (ReqBody.arr []) ≠ ⟨400, RBody.err ⟨noneTypeMsg, "error"⟩⟩ :=
  ⟨(c9_model_implies_explainer true ⟨fun _ => 0⟩
      ⟨fun _ => [], ⟨some 0, none⟩⟩).1 rfl,
   (c9_model_implies_explainer true ⟨fun _ => 0⟩
      ⟨fun _ => [], ⟨some 0, none⟩⟩).2 (ReqBody.arr []) [] rfl rfl⟩

/-- Claim C10: every success response carries the `explanation` object
(the success body is assembled with it unconditionally at lines 101-108 —
in the embedding, `SuccessBody` always contains it); for a parsed batch,
the zero-row case yields `explanation.values = []` and `predictions = []`
with `base_value` the fallback literal `0`, and the fallback literal
appears exactly in the zero-row case (non-empty batches always carry a
coerced float). -/
theorem c10_empty_batch_base_fallback (st : ServerState) (m : Model)
    (ex : Explainer) (body : ReqBody) (rs : List Record) (sb : SuccessBody)
    (hm : st.model = some m) (hex : st.explainer = some ex)
    (hp : parseRecords body = Except.ok rs)
    (hresp : predictHandler st body = ⟨200, RBody.ok sb⟩) :
    (rs = [] ↔ sb.explanation.base_value = BaseOut.fallbackZero) ∧
      (rs = [] → sb.predictions = [] ∧ sb.explanation.values = []) := by
  have hrun := handler_200_ok hm hresp
  rw [runPipeline_parse_ok hp] at hrun
  unfold pipelineOfRecords at hrun
  cases hM : toMatrix (normalize rs) with
  | error e =>
    rw [hM] at hrun
    simp at hrun
  | ok M =>
    simp only [hM] at hrun
    have hfmt : formatResult m st.explainer M = Except.ok sb := hrun
    obtain ⟨ex2, expl, hex2, hep, hsb⟩ := formatResult_ok hfmt
    have hlen := toMatrix_length hM
    rw [normalize_length] at hlen
    rcases explainPart_ok hep with ⟨hM0, hexpl⟩ |
      ⟨r0, rest, q, entries, hMc, hb, he, hexpl⟩
    · have hrs0 : rs = [] := by
        rw [hM0] at hlen
        exact List.length_eq_zero.mp hlen.symm
      refine ⟨⟨fun _ => ?_, fun _ => hrs0⟩, fun _ => ?_⟩
      · rw [hsb]
        simp [hexpl]
      · rw [hsb, hM0]
        simp [hexpl]
    · have hrs1 : rs ≠ [] := by
        intro h0
        rw [hMc, h0] at hlen
        simp at hlen
      refine ⟨⟨fun h0 => absurd h0 hrs1, fun hbv => ?_⟩,
        fun h0 => absurd h0 hrs1⟩
      rw [hsb] at hbv
      simp [hexpl] at hbv

/-- Concrete server state (loaded model and explainer) for the C10
witness. -/
def w10state : ServerState :=
  ⟨some ⟨fun _ => 2⟩, some ⟨fun _ => [], ⟨some 3, none⟩⟩⟩

/-- Witness for C10: the empty batch succeeds and its success body shows
the fallback-literal baseline together with empty predictions and
explanation values. -/
theorem c10_witness :
    predictHandler w10state (ReqBody.arr []) =
      ⟨200, RBody.ok ⟨[], ⟨BaseOut.fallbackZero, []⟩, "success"⟩⟩ ∧
    (([] : List Record) = [] ↔
      (⟨[], ⟨BaseOut.fallbackZero, []⟩, "success"⟩ :
        SuccessBody).explanation.base_value = BaseOut.fallbackZero) ∧
    (([] : List Record) = [] →
      (⟨[], ⟨BaseOut.fallbackZero, []⟩, "success"⟩ :
        SuccessBody).predictions = [] ∧
      (⟨[], ⟨BaseOut.fallbackZero, []⟩, "success"⟩ :
        SuccessBody).explanation.values = []) :=
  ⟨rfl,
   c10_empty_batch_base_fallback w10state ⟨fun _ => 2⟩
     ⟨fun _ => [], ⟨some 3, none⟩⟩ (ReqBody.arr []) []
     ⟨[], ⟨BaseOut.fallbackZero, []⟩, "success"⟩ rfl rfl rfl rfl⟩

end CreditRiskServer
